import Mathlib

/-!
Shallow embedding of `src/frontend/src/components/settings-model/index.tsx`
(the `SettingsModal` React component of OpenNyAI/JB_Manager).

The component holds a `Record<string, InputConfig>` of form fields, lets the
user edit values, and on submit validates required fields and POSTs a
mode-dependent JSON body.  We embed:

* the data model (`InputConfig`, the Field Set as an ordered association
  list, JS values and JSON trees),
* `updateValue` (the state updater),
* `handleSubmit`, split into the pure body-building phase
  (`handleSubmitBuild`) and the effectful run (`handleSubmitRun`) that
  records the observable effects: alerts raised, POST requests issued and
  the number of `onClose` invocations.

External collaborators are parameters: the result of `fetchSecret()` is an
`Except Unit String` (failure or token) and the result of `sendRequest` is a
function from the request to `Except (Option String) Unit`, where the error
payload models `error?.body?.detail` (`none` = detail absent, i.e. the JS
value `undefined`).
-/

namespace SettingsModal

/-- A JS value of TS type `string | number | boolean` (the `value` field of
`InputConfig`).  Numbers are modelled as integers; the claims only exercise
integral values. -/
inductive JSValue where
  | str (s : String)
  | num (n : Int)
  | bool (b : Bool)
deriving DecidableEq, Repr

/-- JS `value.toString()`. -/
def JSValue.toStr : JSValue → String
  | .str s => s
  | .num n => toString n
  | .bool b => if b then "true" else "false"

/-- The `type` field of `InputConfig`:
`'string' | 'number' | 'boolean' | 'list' | 'text'`. -/
inductive FieldType where
  | string
  | number
  | boolean
  | list
  | text
deriving DecidableEq, Repr

/-- The TS interface `InputConfig`. -/
structure InputConfig where
  value : JSValue
  is_secret : Option Bool := none
  type : FieldType
  placeholder : Option String := none
  required : Bool
deriving DecidableEq, Repr

/-- The Field Set `Record<string, InputConfig>`: an ordered association list
(JS `for...in` iterates string keys in insertion order; `Record` keys are
unique). -/
abbrev FieldSet := List (String × InputConfig)

/-- JS property access `fs[k]`: the first entry with the given key, `none`
when the key is absent (JS `undefined`). -/
def lookupField (fs : FieldSet) (k : String) : Option InputConfig :=
  (fs.find? (fun p => p.1 == k)).map (fun p => p.2)

/-- Embedding of `updateValue(key, newValue)`:
`{...prevState, [key]: {...prevState[key], value: newValue}}`.
For a key present in the set, the spread replaces that entry's `value` in
place and keeps every other entry (and the key's position) unchanged.  (On an
absent key the source spread would create an entry missing `type` and
`required`, outside the `InputConfig` interface; the typed embedding covers
the keys present in the set.) -/
def updateValue (fs : FieldSet) (key : String) (newValue : JSValue) : FieldSet :=
  fs.map (fun p => if p.1 == key then (p.1, { p.2 with value := newValue }) else p)

/-- A JSON tree, the shape of the request body built by `handleSubmit`. -/
inductive JSON where
  | jstr (s : String)
  | jnum (n : Int)
  | jbool (b : Bool)
  | jarr (elems : List JSON)
  | jobj (fields : List (String × JSON))
deriving Repr

/-- Embedding a field's JS value into the JSON body (JSON.stringify maps
strings, numbers and booleans to the corresponding JSON scalars). -/
def JSValue.toJSON : JSValue → JSON
  | .str s => .jstr s
  | .num n => .jnum n
  | .bool b => .jbool b

/-- JS `String.prototype.trim`: drop whitespace from both ends.  (Whitespace
is modelled by `Char.isWhitespace`, covering space, tab, CR and LF.) -/
def jsTrim (s : String) : String :=
  ⟨((s.data.dropWhile Char.isWhitespace).reverse.dropWhile Char.isWhitespace).reverse⟩

/-- JS `String.prototype.split(',')` on the character list: splitting the
empty string yields `[""]`, a trailing separator yields a trailing `""`. -/
def splitCommaChars : List Char → List (List Char)
  | [] => [[]]
  | c :: rest =>
    if c = ',' then [] :: splitCommaChars rest
    else
      match splitCommaChars rest with
      | [] => [[c]]
      | g :: gs => (c :: g) :: gs

/-- JS `s.split(',')`. -/
def jsSplitComma (s : String) : List String :=
  (splitCommaChars s.data).map String.mk

/-- The test `inputElements[key].required === true &&
!inputElements[key].value.toString().trim()`: a required field whose
stringified value trims to the empty string (the empty string is the only
falsy string). -/
def requiredEmpty (cfg : InputConfig) : Bool :=
  cfg.required && (jsTrim cfg.value.toStr == "")

/-- The credentials-mode loop: walk the fields in insertion order; on the
first required field whose stringified value trims empty, abort with the
alert text `` `${key} is required` ``; otherwise collect
`credentials[key] = inputElements[key].value` for every field. -/
def buildCredentials : FieldSet → Except String (List (String × JSON))
  | [] => .ok []
  | (k, cfg) :: rest =>
    if requiredEmpty cfg then .error (k ++ " is required")
    else (buildCredentials rest).map (fun r => (k, cfg.value.toJSON) :: r)

/-- Install-mode serialization of one field:
if `type === 'list'`, `value.toString().split(',').map(item => item.trim())`;
otherwise the value unchanged. -/
def serializeInstallValue (cfg : InputConfig) : JSON :=
  if cfg.type = .list then
    .jarr (((jsSplitComma cfg.value.toStr).map jsTrim).map JSON.jstr)
  else cfg.value.toJSON

/-- The install-mode loop: required-and-non-empty check as in credentials
mode, then `data[key]` is the list-split serialization for `list` fields and
the raw value otherwise. -/
def buildInstall : FieldSet → Except String (List (String × JSON))
  | [] => .ok []
  | (k, cfg) :: rest =>
    if requiredEmpty cfg then .error (k ++ " is required")
    else (buildInstall rest).map (fun r => (k, serializeInstallValue cfg) :: r)

/-- The argument record passed to `sendRequest`. -/
structure Request where
  url : String
  method : String
  accessToken : Option String
  body : JSON
  headers : List (String × String)
deriving Repr

/-- The headers literal `{'Content-Type': 'application/json'}`. -/
def stdHeaders : List (String × String) := [("Content-Type", "application/json")]

/-- Outcome of the body-building phase of `handleSubmit` (everything before
the `sendRequest` call). -/
inductive BuildResult where
  | abort (msg : String)
  | fault
  | req (r : Request)
deriving Repr

/-- JS string interpolation of a possibly-`undefined` value:
`` `${x}` `` renders `undefined` as the string `"undefined"`. -/
def jsStr (o : Option String) : String := o.getD "undefined"

/-- The body-building phase of `handleSubmit`, parameterised by `APIHOST`
(`import.meta.env.VITE_SERVER_HOST`), the `botId` prop (optional in TS), the
`modelType` prop, the current `inputElements` Field Set and the result of
`fetchSecret()` (consulted only on the install branch).

* `abort msg` models `alert(msg); return` (no network call);
* `fault` models the TypeError thrown when activate mode reads
  `.required` off a missing `phone_number`/`whatsapp` entry;
* `req r` models falling through to `sendRequest(r)`. -/
def handleSubmitBuild (APIHOST : String) (botId : Option String) (modelType : String)
    (inputElements : FieldSet) (fetchSecret : Except Unit String) : BuildResult :=
  if modelType = "credentials" then
    match buildCredentials inputElements with
    | .error msg => .abort msg
    | .ok creds =>
        .req ⟨APIHOST ++ "/v1/bot/" ++ jsStr botId ++ "/configure", "POST", none,
              .jobj [("credentials", .jobj creds)], stdHeaders⟩
  else if modelType = "activate" then
    match lookupField inputElements "phone_number" with
    | none => .fault
    | some phone =>
      if requiredEmpty phone then .abort "Phone number is required"
      else
        match lookupField inputElements "whatsapp" with
        | none => .fault
        | some wa =>
          if requiredEmpty wa then .abort "Whatsapp Key is required"
          else
            .req ⟨APIHOST ++ "/v1/bot/" ++ jsStr botId ++ "/activate", "POST", none,
                  .jobj [("phone_number", phone.value.toJSON),
                         ("channels", .jobj [("whatsapp", wa.value.toJSON)])], stdHeaders⟩
  else if modelType = "install" then
    match fetchSecret with
    | .error _ => .abort "Failed to fetch the access token"
    | .ok token =>
      match buildInstall inputElements with
      | .error msg => .abort msg
      | .ok items =>
          .req ⟨APIHOST ++ "/v1/bot/install", "POST", some token, .jobj items, stdHeaders⟩
  else
    .req ⟨"", "POST", none, .jobj [], stdHeaders⟩

/-- The observable effects of one `handleSubmit` invocation: the alerts
raised, the requests handed to `sendRequest`, and how many times the
`onClose` callback ran. -/
structure Effects where
  alerts : List String
  posts : List Request
  closeCalls : Nat
deriving Repr

/-- The catch-branch alert
`` `Error from server "${error?.body?.detail}". Please try again.` ``;
an absent detail interpolates as `"undefined"`. -/
def serverErrorMsg (detail : Option String) : String :=
  "Error from server \"" ++ jsStr detail ++ "\". Please try again."

/-- Full run of `handleSubmit`: build the body, then (unless aborted)
`sendRequest` and either `onClose()` on success or the server-error alert on
failure.  `none` models the activate-mode TypeError on a missing well-known
key (an unhandled exception: no alert, no request, no close). -/
def handleSubmitRun (APIHOST : String) (botId : Option String) (modelType : String)
    (inputElements : FieldSet) (fetchSecret : Except Unit String)
    (net : Request → Except (Option String) Unit) : Option Effects :=
  match handleSubmitBuild APIHOST botId modelType inputElements fetchSecret with
  | .abort msg => some ⟨[msg], [], 0⟩
  | .fault => none
  | .req r =>
    match net r with
    | .ok _ => some ⟨[], [r], 1⟩
    | .error d => some ⟨[serverErrorMsg d], [r], 0⟩

/-- The credentials object collected by the credentials-mode loop when no
required field is empty: each field name mapped verbatim to its value. -/
def credsJSON (fs : FieldSet) : List (String × JSON) :=
  fs.map (fun p => (p.1, p.2.value.toJSON))

/-- The flat body collected by the install-mode loop when no required field
is empty: each field name mapped to its install serialization. -/
def installJSON (fs : FieldSet) : List (String × JSON) :=
  fs.map (fun p => (p.1, serializeInstallValue p.2))

mutual

/-- All object keys occurring anywhere in a JSON tree. -/
def jsonKeys : JSON → List String
  | .jstr _ => []
  | .jnum _ => []
  | .jbool _ => []
  | .jarr xs => jsonKeysArr xs
  | .jobj fields => jsonKeysObj fields

/-- Keys of every JSON tree in a list. -/
def jsonKeysArr : List JSON → List String
  | [] => []
  | j :: rest => jsonKeys j ++ jsonKeysArr rest

/-- Keys of an object field list, including nested ones. -/
def jsonKeysObj : List (String × JSON) → List String
  | [] => []
  | (k, j) :: rest => k :: (jsonKeys j ++ jsonKeysObj rest)

end

/-- Every required field of the set stringifies-and-trims non-empty (the
premise of the no-abort properties), as a decidable check. -/
def allPass (fs : FieldSet) : Bool :=
  fs.all (fun p => !requiredEmpty p.2)

/-- A network collaborator whose `sendRequest` always succeeds. -/
def netOk : Request → Except (Option String) Unit := fun _ => .ok ()

/-- A network collaborator that always fails with the server detail `"boom"`. -/
def netErrBoom : Request → Except (Option String) Unit := fun _ => .error (some "boom")

/-- The request issued when `modelType` matches none of the three modes:
`apiEndpoint` still `''`, `data` still `{}`, `accessToken` still `null`. -/
def emptyModeRequest : Request := ⟨"", "POST", none, .jobj [], stdHeaders⟩

/- Concrete fixtures used by the per-claim witnesses and counterexamples. -/

/-- A string field, required, with the given value. -/
def strField (s : String) : InputConfig := ⟨.str s, none, .string, none, true⟩

/-- Activate-mode Field Set with a third field beyond the two well-known
keys; every required field is non-empty. -/
def C1fs : FieldSet :=
  [("phone_number", strField "123"), ("whatsapp", strField "k"), ("extra", strField "v")]

/-- The body activate mode builds from `C1fs`. -/
def C1body : JSON :=
  .jobj [("phone_number", .jstr "123"), ("channels", .jobj [("whatsapp", .jstr "k")])]

/-- Activate-mode Field Set whose `extra` field is required and empty while
the two well-known keys are filled. -/
def C2fs : FieldSet :=
  [("phone_number", strField "123"), ("whatsapp", strField "key1"), ("extra", strField "")]

/-- The request activate mode issues from `C2fs` (the empty required
`extra` field notwithstanding). -/
def C2req : Request :=
  ⟨"H/v1/bot/b/activate", "POST", none,
   .jobj [("phone_number", .jstr "123"), ("channels", .jobj [("whatsapp", .jstr "key1")])],
   stdHeaders⟩

/-- Activate-mode Field Set whose `phone_number` is required and empty. -/
def C2wfs : FieldSet := [("phone_number", strField ""), ("whatsapp", strField "x")]

/-- The spec's credentials-mode example: `{api_key: "x", region: "y"}`. -/
def C3fs : FieldSet := [("api_key", strField "x"), ("region", strField "y")]

/-- The spec's activate-mode example: `phone_number="123"`, `whatsapp="key1"`. -/
def C4fs : FieldSet := [("phone_number", strField "123"), ("whatsapp", strField "key1")]

/-- An install-mode Field Set with a list-typed field holding `"a, b ,c"`. -/
def C5fs : FieldSet :=
  [("tags", ⟨.str "a, b ,c", none, .list, none, true⟩), ("name", strField "n")]

/-- A list-typed field whose value ends in a comma. -/
def C5cfgTrail : InputConfig := ⟨.str "a,", none, .list, none, false⟩

/-- A Field Set that would fail validation (required field empty), used to
show that a failed secret fetch pre-empts validation. -/
def C6fs : FieldSet := [("k1", strField "")]

/-- Credentials-mode fixture for the network-outcome claim. -/
def C7fs : FieldSet := [("api_key", strField "x")]

/-- The request credentials mode builds from `C7fs`. -/
def C7req : Request :=
  ⟨"H/v1/bot/b/configure", "POST", none,
   .jobj [("credentials", .jobj [("api_key", .jstr "x")])], stdHeaders⟩

/-- Two-field fixture for the `updateValue` frame claim. -/
def C8fs : FieldSet :=
  [("a", ⟨.str "va", some true, .string, some "ph", true⟩),
   ("b", ⟨.num 7, none, .number, none, false⟩)]

/-- A required boolean field whose value is `false`. -/
def C9cfgFalse : InputConfig := ⟨.bool false, none, .boolean, none, true⟩

/-- A required numeric field whose value is `0`. -/
def C9cfgZero : InputConfig := ⟨.num 0, none, .number, none, true⟩

/-- The request credentials mode issues when the set holds the `false` and
`0` valued required fields. -/
def C9req : Request :=
  ⟨"H/v1/bot/b/configure", "POST", none,
   .jobj [("credentials", .jobj [("flag", .jbool false), ("count", .jnum 0)])], stdHeaders⟩

/-! ### Unfolding equations for `handleSubmitBuild`, one per mode -/

/-- Credentials branch of `handleSubmitBuild`. -/
theorem handleSubmitBuild_credentials (H : String) (b : Option String) (fs : FieldSet)
    (secret : Except Unit String) :
    handleSubmitBuild H b "credentials" fs secret =
      match buildCredentials fs with
      | .error msg => .abort msg
      | .ok creds =>
          .req ⟨H ++ "/v1/bot/" ++ jsStr b ++ "/configure", "POST", none,
                .jobj [("credentials", .jobj creds)], stdHeaders⟩ := rfl

/-- Activate branch of `handleSubmitBuild`. -/
theorem handleSubmitBuild_activate (H : String) (b : Option String) (fs : FieldSet)
    (secret : Except Unit String) :
    handleSubmitBuild H b "activate" fs secret =
      match lookupField fs "phone_number" with
      | none => .fault
      | some phone =>
        if requiredEmpty phone then .abort "Phone number is required"
        else
          match lookupField fs "whatsapp" with
          | none => .fault
          | some wa =>
            if requiredEmpty wa then .abort "Whatsapp Key is required"
            else
              .req ⟨H ++ "/v1/bot/" ++ jsStr b ++ "/activate", "POST", none,
                    .jobj [("phone_number", phone.value.toJSON),
                           ("channels", .jobj [("whatsapp", wa.value.toJSON)])],
                    stdHeaders⟩ := rfl

/-- Install branch of `handleSubmitBuild`. -/
theorem handleSubmitBuild_install (H : String) (b : Option String) (fs : FieldSet)
    (secret : Except Unit String) :
    handleSubmitBuild H b "install" fs secret =
      match secret with
      | .error _ => .abort "Failed to fetch the access token"
      | .ok token =>
        match buildInstall fs with
        | .error msg => .abort msg
        | .ok items =>
            .req ⟨H ++ "/v1/bot/install", "POST", some token, .jobj items, stdHeaders⟩ := rfl

/-- Fallthrough branch of `handleSubmitBuild`: an unrecognized mode builds
the empty-endpoint, empty-body request. -/
theorem handleSubmitBuild_other (H : String) (b : Option String) (mt : String) (fs : FieldSet)
    (secret : Except Unit String) (h1 : mt ≠ "credentials") (h2 : mt ≠ "activate")
    (h3 : mt ≠ "install") :
    handleSubmitBuild H b mt fs secret = .req emptyModeRequest := by
  unfold handleSubmitBuild
  rw [if_neg h1, if_neg h2, if_neg h3]
  rfl

/-! ### The run phase -/

/-- An aborting build raises exactly its alert and issues no request. -/
theorem handleSubmitRun_abort (H : String) (b : Option String) (mt : String) (fs : FieldSet)
    (secret : Except Unit String) (net : Request → Except (Option String) Unit) (msg : String)
    (h : handleSubmitBuild H b mt fs secret = .abort msg) :
    handleSubmitRun H b mt fs secret net = some ⟨[msg], [], 0⟩ := by
  unfold handleSubmitRun
  rw [h]

/-- A build that reaches the network call posts exactly once and then either
closes (success) or alerts the server-error message (failure). -/
theorem handleSubmitRun_req (H : String) (b : Option String) (mt : String) (fs : FieldSet)
    (secret : Except Unit String) (net : Request → Except (Option String) Unit) (r : Request)
    (h : handleSubmitBuild H b mt fs secret = .req r) :
    handleSubmitRun H b mt fs secret net =
      match net r with
      | .ok _ => some ⟨[], [r], 1⟩
      | .error d => some ⟨[serverErrorMsg d], [r], 0⟩ := by
  unfold handleSubmitRun
  rw [h]

/-! ### The field loops -/

/-- When no required field trims empty, the credentials loop succeeds and
collects every field verbatim, in order. -/
theorem buildCredentials_ok (fs : FieldSet)
    (hall : ∀ p ∈ fs, requiredEmpty p.2 = false) :
    buildCredentials fs = .ok (credsJSON fs) := by
  induction fs with
  | nil => rfl
  | cons hd tl ih =>
    obtain ⟨k, cfg⟩ := hd
    have h0 : requiredEmpty cfg = false := hall (k, cfg) (List.mem_cons_self _ _)
    have htl : ∀ p ∈ tl, requiredEmpty p.2 = false :=
      fun p hp => hall p (List.mem_cons_of_mem _ hp)
    simp [buildCredentials, h0, ih htl, credsJSON, Except.map]

/-- When no required field trims empty, the install loop succeeds and
serializes every field, in order. -/
theorem buildInstall_ok (fs : FieldSet)
    (hall : ∀ p ∈ fs, requiredEmpty p.2 = false) :
    buildInstall fs = .ok (installJSON fs) := by
  induction fs with
  | nil => rfl
  | cons hd tl ih =>
    obtain ⟨k, cfg⟩ := hd
    have h0 : requiredEmpty cfg = false := hall (k, cfg) (List.mem_cons_self _ _)
    have htl : ∀ p ∈ tl, requiredEmpty p.2 = false :=
      fun p hp => hall p (List.mem_cons_of_mem _ hp)
    simp [buildInstall, h0, ih htl, installJSON, Except.map]

/-- The credentials loop aborts on the first required-empty field, with the
alert naming that field. -/
theorem buildCredentials_error (fs : FieldSet) (q : String × InputConfig)
    (h : fs.find? (fun p => requiredEmpty p.2) = some q) :
    buildCredentials fs = .error (q.1 ++ " is required") := by
  induction fs with
  | nil => simp [List.find?] at h
  | cons hd tl ih =>
    by_cases h0 : requiredEmpty hd.2 = true
    · simp only [List.find?_cons, h0, cond_true, Option.some.injEq] at h
      obtain rfl : hd = q := h
      obtain ⟨k, cfg⟩ := hd
      simp [buildCredentials, h0]
    · have h0f : requiredEmpty hd.2 = false := by simpa using h0
      simp only [List.find?_cons, h0f, cond_false] at h
      obtain ⟨k, cfg⟩ := hd
      simp only at h0f
      simp [buildCredentials, h0f, ih h, Except.map]

/-- The install loop aborts on the first required-empty field, with the
alert naming that field. -/
theorem buildInstall_error (fs : FieldSet) (q : String × InputConfig)
    (h : fs.find? (fun p => requiredEmpty p.2) = some q) :
    buildInstall fs = .error (q.1 ++ " is required") := by
  induction fs with
  | nil => simp [List.find?] at h
  | cons hd tl ih =>
    by_cases h0 : requiredEmpty hd.2 = true
    · simp only [List.find?_cons, h0, cond_true, Option.some.injEq] at h
      obtain rfl : hd = q := h
      obtain ⟨k, cfg⟩ := hd
      simp [buildInstall, h0]
    · have h0f : requiredEmpty hd.2 = false := by simpa using h0
      simp only [List.find?_cons, h0f, cond_false] at h
      obtain ⟨k, cfg⟩ := hd
      simp only at h0f
      simp [buildInstall, h0f, ih h, Except.map]

/-- The collected credentials object keeps exactly the Field Set's keys. -/
theorem credsJSON_keys (fs : FieldSet) :
    (credsJSON fs).map Prod.fst = fs.map Prod.fst := by
  simp [credsJSON]

/-- The install body keeps exactly the Field Set's keys. -/
theorem installJSON_keys (fs : FieldSet) :
    (installJSON fs).map Prod.fst = fs.map Prod.fst := by
  simp [installJSON]

/-- A successful lookup returns the config of a member entry, so a set all
of whose fields pass the required check looks up to passing configs. -/
theorem lookupField_requiredEmpty_false (fs : FieldSet) (k : String) (cfg : InputConfig)
    (hall : ∀ p ∈ fs, requiredEmpty p.2 = false)
    (h : lookupField fs k = some cfg) : requiredEmpty cfg = false := by
  unfold lookupField at h
  cases hf : fs.find? (fun p => p.1 == k) with
  | none => rw [hf] at h; simp at h
  | some p =>
    rw [hf] at h
    simp at h
    exact h ▸ hall p (List.mem_of_find?_eq_some hf)

/-! ### `updateValue` frame lemmas -/

/-- `updateValue` never changes the key sequence of the Field Set. -/
theorem updateValue_keys (fs : FieldSet) (key : String) (v : JSValue) :
    (updateValue fs key v).map Prod.fst = fs.map Prod.fst := by
  induction fs with
  | nil => rfl
  | cons p tl ih =>
    simp only [updateValue, List.map_cons] at ih ⊢
    congr 1
    by_cases hp : (p.1 == key) = true
    · rw [if_pos hp]
    · rw [if_neg hp]

/-- `updateValue` on a cons cell rewrites the head when its key matches and
recurses on the tail. -/
theorem updateValue_cons (p : String × InputConfig) (tl : FieldSet) (key : String)
    (v : JSValue) :
    updateValue (p :: tl) key v =
      (if p.1 == key then (p.1, { p.2 with value := v }) else p) :: updateValue tl key v := rfl

/-- Lookup on a cons cell checks the head key first. -/
theorem lookupField_cons (p : String × InputConfig) (tl : FieldSet) (k : String) :
    lookupField (p :: tl) k =
      if p.1 == k then some p.2 else lookupField tl k := by
  by_cases h : (p.1 == k) = true
  · simp [lookupField, List.find?_cons, h]
  · have h2 : (p.1 == k) = false := by simpa using h
    simp [lookupField, List.find?_cons, h2]

/-- Looking up the updated key returns the old descriptor with only its
`value` replaced. -/
theorem lookupField_updateValue_self (fs : FieldSet) (key : String) (v : JSValue)
    (cfg : InputConfig) (h : lookupField fs key = some cfg) :
    lookupField (updateValue fs key v) key = some { cfg with value := v } := by
  induction fs with
  | nil => simp [lookupField, List.find?] at h
  | cons p tl ih =>
    rw [lookupField_cons] at h
    rw [updateValue_cons, lookupField_cons]
    by_cases hp : (p.1 == key) = true
    · rw [if_pos hp] at h
      have hcfg : p.2 = cfg := by simpa using h
      rw [if_pos hp]
      simp [hp, hcfg]
    · rw [if_neg hp] at h
      rw [if_neg hp]
      have hpf : (p.1 == key) = false := by simpa using hp
      simp [hpf]
      exact ih h

/-- Looking up any other key is unaffected by `updateValue`. -/
theorem lookupField_updateValue_other (fs : FieldSet) (key : String) (v : JSValue)
    (k : String) (hk : k ≠ key) :
    lookupField (updateValue fs key v) k = lookupField fs k := by
  induction fs with
  | nil => rfl
  | cons p tl ih =>
    rw [updateValue_cons, lookupField_cons, lookupField_cons]
    by_cases hpk : (p.1 == k) = true
    · have h1 : p.1 = k := by simpa using hpk
      have hpkey : (p.1 == key) = false := by simp [h1, hk]
      simp [hpk, hpkey]
    · have hpk2 : (p.1 == k) = false := by simpa using hpk
      by_cases hpkey : (p.1 == key) = true
      · rw [if_pos hpkey]
        simp [hpk2]
        exact ih
      · rw [if_neg hpkey]
        simp [hpk2]
        exact ih

/-! ## Claims -/

/-- C1, counterexample to the claim as stated: in activate mode, a Field Set
whose required fields are all non-empty and which contains a third field
`extra` produces a request whose body nowhere contains a value for `extra` —
the body is limited to `phone_number` and `channels.whatsapp`. -/
theorem C1_counterexample :
    allPass C1fs = true ∧
    handleSubmitBuild "H" (some "b") "activate" C1fs (.ok "tok") =
      .req ⟨"H/v1/bot/b/activate", "POST", none, C1body, stdHeaders⟩ ∧
    C1fs.map Prod.fst = ["phone_number", "whatsapp", "extra"] ∧
    "extra" ∉ jsonKeys C1body :=
  ⟨rfl, rfl, rfl, by decide⟩

/-- C1 (amended): with every required field non-empty after stringify-and-trim,
no mode aborts with a validation message, and the built body includes a value
for every field of the Field Set in credentials mode (under `credentials`) and
in install mode (top level, with the secret fetch succeeded); in activate mode
the body includes exactly the `phone_number` and `whatsapp` fields (which must
be present in the set), nothing for any other field. -/
theorem C1_amended_body_includes_fields (H : String) (b : Option String) (fs : FieldSet)
    (secret : Except Unit String) (token : String)
    (hall : ∀ p ∈ fs, requiredEmpty p.2 = false) :
    (handleSubmitBuild H b "credentials" fs secret =
        .req ⟨H ++ "/v1/bot/" ++ jsStr b ++ "/configure", "POST", none,
              .jobj [("credentials", .jobj (credsJSON fs))], stdHeaders⟩
      ∧ (credsJSON fs).map Prod.fst = fs.map Prod.fst)
    ∧ (handleSubmitBuild H b "install" fs (.ok token) =
        .req ⟨H ++ "/v1/bot/install", "POST", some token, .jobj (installJSON fs), stdHeaders⟩
      ∧ (installJSON fs).map Prod.fst = fs.map Prod.fst)
    ∧ (∀ phone wa, lookupField fs "phone_number" = some phone →
        lookupField fs "whatsapp" = some wa →
        handleSubmitBuild H b "activate" fs secret =
          .req ⟨H ++ "/v1/bot/" ++ jsStr b ++ "/activate", "POST", none,
                .jobj [("phone_number", phone.value.toJSON),
                       ("channels", .jobj [("whatsapp", wa.value.toJSON)])],
                stdHeaders⟩) := by
  refine ⟨⟨?_, credsJSON_keys fs⟩, ⟨?_, installJSON_keys fs⟩, ?_⟩
  · rw [handleSubmitBuild_credentials, buildCredentials_ok fs hall]
  · rw [handleSubmitBuild_install, buildInstall_ok fs hall]
  · intro phone wa hp hw
    have hpe := lookupField_requiredEmpty_false fs _ _ hall hp
    have hwe := lookupField_requiredEmpty_false fs _ _ hall hw
    rw [handleSubmitBuild_activate]
    simp [hp, hw, hpe, hwe]

/-- C1 (amended) at a concrete input: the activate body built from `C1fs`. -/
theorem C1_amended_body_includes_fields_witness :
    handleSubmitBuild "H" (some "b") "activate" C1fs (.ok "tok") =
      .req ⟨"H/v1/bot/b/activate", "POST", none, C1body, stdHeaders⟩ :=
  (C1_amended_body_includes_fields "H" (some "b") C1fs (.ok "tok") "tok" (by decide)).2.2
    (strField "123") (strField "k") rfl rfl

/-- C2, counterexample to the claim as stated: in activate mode a Field Set
containing a required field `extra` whose value trims empty does not abort —
the two well-known fields pass their checks, no alert fires, and the POST is
issued (and on success the dialog closes). -/
theorem C2_counterexample :
    lookupField C2fs "extra" = some (strField "") ∧
    requiredEmpty (strField "") = true ∧
    handleSubmitRun "H" (some "b") "activate" C2fs (.ok "tok") netOk =
      some ⟨[], [C2req], 1⟩ :=
  ⟨rfl, rfl, rfl⟩

/-- C2 (amended): in credentials mode, and in install mode once the secret
fetch has succeeded, a Field Set whose first required-and-trim-empty field is
`q` makes `handleSubmit` abort with the single alert `` `${q.1} is required` ``
and no POST; in activate mode the same holds only for the two well-known
fields, with their fixed alert texts (`extra` fields are not validated). -/
theorem C2_amended_required_empty_aborts (H : String) (b : Option String) (fs : FieldSet)
    (secret : Except Unit String) (token : String)
    (net : Request → Except (Option String) Unit) (q : String × InputConfig) :
    (fs.find? (fun p => requiredEmpty p.2) = some q →
       handleSubmitRun H b "credentials" fs secret net =
         some ⟨[q.1 ++ " is required"], [], 0⟩)
    ∧ (fs.find? (fun p => requiredEmpty p.2) = some q →
       handleSubmitRun H b "install" fs (.ok token) net =
         some ⟨[q.1 ++ " is required"], [], 0⟩)
    ∧ (∀ phone, lookupField fs "phone_number" = some phone → requiredEmpty phone = true →
       handleSubmitRun H b "activate" fs secret net =
         some ⟨["Phone number is required"], [], 0⟩)
    ∧ (∀ phone wa, lookupField fs "phone_number" = some phone →
       requiredEmpty phone = false →
       lookupField fs "whatsapp" = some wa → requiredEmpty wa = true →
       handleSubmitRun H b "activate" fs secret net =
         some ⟨["Whatsapp Key is required"], [], 0⟩) := by
  refine ⟨fun hq => ?_, fun hq => ?_, fun phone hp hpe => ?_,
          fun phone wa hp hpe hw hwe => ?_⟩
  · exact handleSubmitRun_abort _ _ _ _ _ _ _
      (by rw [handleSubmitBuild_credentials, buildCredentials_error fs q hq])
  · exact handleSubmitRun_abort _ _ _ _ _ _ _
      (by rw [handleSubmitBuild_install, buildInstall_error fs q hq])
  · exact handleSubmitRun_abort _ _ _ _ _ _ _
      (by rw [handleSubmitBuild_activate]; simp [hp, hpe])
  · exact handleSubmitRun_abort _ _ _ _ _ _ _
      (by rw [handleSubmitBuild_activate]; simp [hp, hw, hpe, hwe])

/-- C2 (amended) at concrete inputs: a credentials-mode abort naming the
field, and the activate-mode phone-number abort. -/
theorem C2_amended_required_empty_aborts_witness :
    handleSubmitRun "H" (some "b") "credentials" [("k1", strField "")] (.error ()) netOk =
      some ⟨["k1 is required"], [], 0⟩
    ∧ handleSubmitRun "H" (some "b") "activate" C2wfs (.error ()) netOk =
        some ⟨["Phone number is required"], [], 0⟩ :=
  ⟨(C2_amended_required_empty_aborts "H" (some "b") [("k1", strField "")] (.error ()) "tok"
      netOk ("k1", strField "")).1 rfl,
   (C2_amended_required_empty_aborts "H" (some "b") C2wfs (.error ()) "tok"
      netOk ("k1", strField "")).2.2.1 (strField "") rfl (by decide)⟩

/-- C3: in credentials mode, with every required field passing its check, the
body is exactly one key `credentials` whose value maps each field name
verbatim to its value, in Field Set order. -/
theorem C3_credentials_body (H : String) (b : Option String) (fs : FieldSet)
    (secret : Except Unit String) (hall : ∀ p ∈ fs, requiredEmpty p.2 = false) :
    handleSubmitBuild H b "credentials" fs secret =
      .req ⟨H ++ "/v1/bot/" ++ jsStr b ++ "/configure", "POST", none,
            .jobj [("credentials", .jobj (credsJSON fs))], stdHeaders⟩ := by
  rw [handleSubmitBuild_credentials, buildCredentials_ok fs hall]

/-- C3 at the spec's example: fields `{api_key: "x", region: "y"}` produce the
body `{ credentials: { api_key: "x", region: "y" } }`. -/
theorem C3_credentials_body_witness :
    handleSubmitBuild "H" (some "b") "credentials" C3fs (.error ()) =
      .req ⟨"H/v1/bot/b/configure", "POST", none,
            .jobj [("credentials", .jobj [("api_key", .jstr "x"), ("region", .jstr "y")])],
            stdHeaders⟩ :=
  C3_credentials_body "H" (some "b") C3fs (.error ()) (by decide)

/-- C4: in activate mode, when `phone_number` and `whatsapp` are present and
pass their checks, the body is exactly `phone_number` at top level plus the
`whatsapp` value under `channels.whatsapp` and nothing else. -/
theorem C4_activate_body (H : String) (b : Option String) (fs : FieldSet)
    (secret : Except Unit String) (phone wa : InputConfig)
    (hp : lookupField fs "phone_number" = some phone) (hpe : requiredEmpty phone = false)
    (hw : lookupField fs "whatsapp" = some wa) (hwe : requiredEmpty wa = false) :
    handleSubmitBuild H b "activate" fs secret =
      .req ⟨H ++ "/v1/bot/" ++ jsStr b ++ "/activate", "POST", none,
            .jobj [("phone_number", phone.value.toJSON),
                   ("channels", .jobj [("whatsapp", wa.value.toJSON)])], stdHeaders⟩ := by
  rw [handleSubmitBuild_activate]
  simp [hp, hw, hpe, hwe]

/-- C4 at the spec's example: `phone_number="123"`, `whatsapp="key1"` produce
the body `{ phone_number: "123", channels: { whatsapp: "key1" } }`. -/
theorem C4_activate_body_witness :
    handleSubmitBuild "H" (some "b") "activate" C4fs (.error ()) =
      .req ⟨"H/v1/bot/b/activate", "POST", none,
            .jobj [("phone_number", .jstr "123"),
                   ("channels", .jobj [("whatsapp", .jstr "key1")])], stdHeaders⟩ :=
  C4_activate_body "H" (some "b") C4fs (.error ()) (strField "123") (strField "key1")
    rfl (by decide) rfl (by decide)

/-- C5: in install mode (validation passing) the body serializes each field
in order; a `list`-typed field becomes the comma-split, segment-trimmed
sequence of its stringified value, with empty trimmed segments preserved, and
any other type passes its value through unchanged. -/
theorem C5_install_list_serialization (H : String) (b : Option String) (fs : FieldSet)
    (token : String) (cfg : InputConfig)
    (hall : ∀ p ∈ fs, requiredEmpty p.2 = false) :
    (handleSubmitBuild H b "install" fs (.ok token) =
       .req ⟨H ++ "/v1/bot/install", "POST", some token, .jobj (installJSON fs), stdHeaders⟩)
    ∧ (cfg.type = .list →
        serializeInstallValue cfg =
          .jarr (((jsSplitComma cfg.value.toStr).map jsTrim).map JSON.jstr))
    ∧ (cfg.type ≠ .list → serializeInstallValue cfg = cfg.value.toJSON) := by
  refine ⟨?_, fun hl => ?_, fun hl => ?_⟩
  · rw [handleSubmitBuild_install, buildInstall_ok fs hall]
  · simp [serializeInstallValue, hl]
  · simp [serializeInstallValue, hl]

/-- C5 at concrete inputs: `"a, b ,c"` serializes to `["a","b","c"]` inside
the install body, and a trailing comma yields a trailing empty string. -/
theorem C5_install_list_serialization_witness :
    handleSubmitBuild "H" (some "b") "install" C5fs (.ok "tok") =
      .req ⟨"H/v1/bot/install", "POST", some "tok",
            .jobj [("tags", .jarr [.jstr "a", .jstr "b", .jstr "c"]), ("name", .jstr "n")],
            stdHeaders⟩
    ∧ serializeInstallValue C5cfgTrail = .jarr [.jstr "a", .jstr ""] :=
  ⟨(C5_install_list_serialization "H" (some "b") C5fs "tok" C5cfgTrail (by decide)).1,
   (C5_install_list_serialization "H" (some "b") C5fs "tok" C5cfgTrail (by decide)).2.1 rfl⟩

/-- C6: in install mode the secret fetch is consulted before anything else:
if it fails, the run raises only the generic token alert and issues no POST,
for every Field Set — even one that would fail required-field validation — so
no validation runs; when it succeeds (and validation passes), the fetched
token is attached as the request's access token. -/
theorem C6_secret_fetch_first (H : String) (b : Option String) (fs : FieldSet)
    (net : Request → Except (Option String) Unit) (token : String) :
    handleSubmitRun H b "install" fs (.error ()) net =
      some ⟨["Failed to fetch the access token"], [], 0⟩
    ∧ ((∀ p ∈ fs, requiredEmpty p.2 = false) →
        handleSubmitBuild H b "install" fs (.ok token) =
          .req ⟨H ++ "/v1/bot/install", "POST", some token,
                .jobj (installJSON fs), stdHeaders⟩) := by
  constructor
  · exact handleSubmitRun_abort _ _ _ _ _ _ _ rfl
  · intro hall
    rw [handleSubmitBuild_install, buildInstall_ok fs hall]

/-- C6 at concrete inputs: a failed secret fetch aborts with the generic
alert even though `C6fs` has an empty required field (no validation alert),
and a successful fetch attaches the token. -/
theorem C6_secret_fetch_first_witness :
    handleSubmitRun "H" (some "b") "install" C6fs (.error ()) netOk =
      some ⟨["Failed to fetch the access token"], [], 0⟩
    ∧ handleSubmitBuild "H" (some "b") "install" [("k2", strField "v")] (.ok "tok") =
        .req ⟨"H/v1/bot/install", "POST", some "tok", .jobj [("k2", .jstr "v")], stdHeaders⟩ :=
  ⟨(C6_secret_fetch_first "H" (some "b") C6fs netOk "tok").1,
   (C6_secret_fetch_first "H" (some "b") [("k2", strField "v")] netOk "tok").2 (by decide)⟩

/-- C7: once the build phase reaches the network call with request `r`, a
successful POST runs the close callback exactly once (and raises no alert),
while a failed POST never runs it, shows the alert derived from the server's
error detail (`undefined` rendered when absent), and leaves the dialog open. -/
theorem C7_close_on_success_only (H : String) (b : Option String) (mt : String)
    (fs : FieldSet) (secret : Except Unit String) (r : Request)
    (net : Request → Except (Option String) Unit)
    (hb : handleSubmitBuild H b mt fs secret = .req r) :
    (net r = .ok () → handleSubmitRun H b mt fs secret net = some ⟨[], [r], 1⟩)
    ∧ (∀ d, net r = .error d →
        handleSubmitRun H b mt fs secret net = some ⟨[serverErrorMsg d], [r], 0⟩) := by
  constructor
  · intro hn
    rw [handleSubmitRun_req H b mt fs secret net r hb, hn]
  · intro d hn
    rw [handleSubmitRun_req H b mt fs secret net r hb, hn]

/-- C7 at concrete inputs: success closes once; a failure with server detail
`"boom"` closes never and raises the derived alert. -/
theorem C7_close_on_success_only_witness :
    handleSubmitRun "H" (some "b") "credentials" C7fs (.error ()) netOk =
      some ⟨[], [C7req], 1⟩
    ∧ handleSubmitRun "H" (some "b") "credentials" C7fs (.error ()) netErrBoom =
        some ⟨["Error from server \"boom\". Please try again."], [C7req], 0⟩ :=
  ⟨(C7_close_on_success_only "H" (some "b") "credentials" C7fs (.error ()) C7req
      netOk rfl).1 rfl,
   (C7_close_on_success_only "H" (some "b") "credentials" C7fs (.error ()) C7req
      netErrBoom rfl).2 (some "boom") rfl⟩

/-- C8: for a key present in the Field Set, `updateValue` replaces exactly
that field's `value`, keeps its other metadata, leaves the lookup of every
other key untouched, and preserves the key sequence. -/
theorem C8_updateValue_frame (fs : FieldSet) (key : String) (v : JSValue)
    (cfg : InputConfig) (h : lookupField fs key = some cfg) :
    lookupField (updateValue fs key v) key = some { cfg with value := v }
    ∧ (∀ k, k ≠ key → lookupField (updateValue fs key v) k = lookupField fs k)
    ∧ (updateValue fs key v).map Prod.fst = fs.map Prod.fst :=
  ⟨lookupField_updateValue_self fs key v cfg h,
   fun k hk => lookupField_updateValue_other fs key v k hk,
   updateValue_keys fs key v⟩

/-- C8 at a concrete input: updating `a` in `C8fs` swaps only its value and
leaves `b` untouched. -/
theorem C8_updateValue_frame_witness :
    lookupField (updateValue C8fs "a" (.str "new")) "a" =
      some ⟨.str "new", some true, .string, some "ph", true⟩
    ∧ lookupField (updateValue C8fs "a" (.str "new")) "b" = lookupField C8fs "b" :=
  ⟨(C8_updateValue_frame C8fs "a" (.str "new")
      ⟨.str "va", some true, .string, some "ph", true⟩ rfl).1,
   (C8_updateValue_frame C8fs "a" (.str "new")
      ⟨.str "va", some true, .string, some "ph", true⟩ rfl).2.1 "b" (by decide)⟩

/-- C9, counterexample to the claim as stated: required fields valued the
boolean `false` and the number `0` do not abort submission — credentials mode
stringifies them to `"false"` and `"0"`, the check passes, the POST is issued
and the dialog closes. -/
theorem C9_counterexample :
    C9cfgFalse.required = true ∧ C9cfgZero.required = true ∧
    handleSubmitRun "H" (some "b") "credentials"
      [("flag", C9cfgFalse), ("count", C9cfgZero)] (.error ()) netOk =
      some ⟨[], [C9req], 1⟩ :=
  ⟨rfl, rfl, rfl⟩

/-- C9 (amended): the required check tests only whether the stringified value
trims to the empty string, not JS truthiness; a required field valued `false`
or `0` stringifies non-empty, passes the check, and is collected into the
credentials object rather than aborting. -/
theorem C9_amended_stringified_check (cfg : InputConfig) (k : String) (rest : FieldSet)
    (hv : cfg.value = .bool false ∨ cfg.value = .num 0) :
    requiredEmpty cfg = false
    ∧ buildCredentials ((k, cfg) :: rest) =
        (buildCredentials rest).map (fun r => (k, cfg.value.toJSON) :: r) := by
  have h1 : (jsTrim (JSValue.bool false).toStr == "") = false := by decide
  have h2 : (jsTrim (JSValue.num 0).toStr == "") = false := by decide
  have hre : requiredEmpty cfg = false := by
    obtain hv | hv := hv
    · unfold requiredEmpty
      rw [hv, h1, Bool.and_false]
    · unfold requiredEmpty
      rw [hv, h2, Bool.and_false]
  exact ⟨hre, by simp [buildCredentials, hre]⟩

/-- C9 (amended) at a concrete input: the required `false`-valued field
passes the check and is collected. -/
theorem C9_amended_stringified_check_witness :
    requiredEmpty C9cfgFalse = false
    ∧ buildCredentials [("flag", C9cfgFalse)] = .ok [("flag", .jbool false)] :=
  ⟨(C9_amended_stringified_check C9cfgFalse "flag" [] (.inl rfl)).1,
   (C9_amended_stringified_check C9cfgFalse "flag" [] (.inl rfl)).2⟩

/-- C10: a mode tag other than the three known ones skips validation entirely
and issues a POST to the empty endpoint with the empty JSON object as body
(and no access token); when that call succeeds the close callback still runs
once. -/
theorem C10_unknown_mode_posts_empty (H : String) (b : Option String) (mt : String)
    (fs : FieldSet) (secret : Except Unit String)
    (net : Request → Except (Option String) Unit)
    (h1 : mt ≠ "credentials") (h2 : mt ≠ "activate") (h3 : mt ≠ "install")
    (hn : net emptyModeRequest = .ok ()) :
    handleSubmitRun H b mt fs secret net = some ⟨[], [emptyModeRequest], 1⟩ := by
  rw [handleSubmitRun_req H b mt fs secret net emptyModeRequest
      (handleSubmitBuild_other H b mt fs secret h1 h2 h3), hn]

/-- C10 at a concrete input: mode `"unknown"` with an invalid Field Set still
posts the empty body to the empty endpoint and closes. -/
theorem C10_unknown_mode_posts_empty_witness :
    handleSubmitRun "H" (some "b") "unknown" [("k1", strField "")] (.error ()) netOk =
      some ⟨[], [emptyModeRequest], 1⟩ :=
  C10_unknown_mode_posts_empty "H" (some "b") "unknown" [("k1", strField "")] (.error ())
    netOk (by decide) (by decide) (by decide) rfl

end SettingsModal
